import Mathlib

/-!
Shallow embedding of the customer CRUD server (Express + SQLite).

The server keeps two tables, `customers` and `addresses`, and exposes
REST handlers for creating, listing, fetching, updating and deleting
customers and addresses.  We model the database as explicit lists of
rows, the SQL statements by executable Lean functions over those lists
(following SQLite semantics for LIKE, UNIQUE, ORDER BY, LIMIT/OFFSET and
ON DELETE CASCADE), and each HTTP handler as a function from the request
data and the database to an outcome together with the new database.
-/

/-- A row of the `customers` table:
`id INTEGER PRIMARY KEY AUTOINCREMENT, first_name TEXT NOT NULL,
last_name TEXT NOT NULL, phone_number TEXT NOT NULL UNIQUE`. -/
structure Customer where
  id : Nat
  first_name : String
  last_name : String
  phone_number : String
  deriving Repr, DecidableEq

/-- A row of the `addresses` table:
`id INTEGER PRIMARY KEY AUTOINCREMENT, customer_id INTEGER NOT NULL,
address_details TEXT NOT NULL, city TEXT NOT NULL, state TEXT NOT NULL,
pin_code TEXT NOT NULL, FOREIGN KEY(customer_id) REFERENCES customers(id)
ON DELETE CASCADE`. -/
structure Address where
  id : Nat
  customer_id : Nat
  address_details : String
  city : String
  state : String
  pin_code : String
  deriving Repr, DecidableEq

/-- The database: the two tables plus the AUTOINCREMENT counters. -/
structure DB where
  customers : List Customer
  addresses : List Address
  nextCustomerId : Nat
  nextAddressId : Nat
  deriving Repr, DecidableEq

/-- Well-formedness the real store guarantees: primary keys are unique and
below the AUTOINCREMENT counters. -/
def DB.WF (db : DB) : Prop :=
  (db.customers.map (fun c => c.id)).Nodup ∧
  (db.addresses.map (fun a => a.id)).Nodup ∧
  (∀ c ∈ db.customers, c.id < db.nextCustomerId) ∧
  (∀ a ∈ db.addresses, a.id < db.nextAddressId)

instance (db : DB) : Decidable db.WF := by
  unfold DB.WF; infer_instance

/-! ### JavaScript string primitives used by the handlers -/

/-- JavaScript `String.prototype.trim` (express-validator `.trim()`
sanitizer): strip whitespace from both ends. -/
def jsTrim (s : String) : String :=
  ⟨(((s.data.dropWhile Char.isWhitespace).reverse).dropWhile Char.isWhitespace).reverse⟩

/-- Decimal digit test. -/
def isDecDigit (c : Char) : Bool := '0' ≤ c && c ≤ '9'

/-- Hexadecimal digit test. -/
def isHexDig (c : Char) : Bool :=
  ('0' ≤ c && c ≤ '9') || ('a' ≤ c && c ≤ 'f') || ('A' ≤ c && c ≤ 'F')

/-- Value of a hexadecimal digit. -/
def hexVal (c : Char) : Nat :=
  if '0' ≤ c && c ≤ '9' then c.toNat - 48
  else if 'a' ≤ c && c ≤ 'f' then c.toNat - 87
  else c.toNat - 55

/-- Value of a decimal digit string. -/
def decToNat (cs : List Char) : Nat :=
  cs.foldl (fun acc c => acc * 10 + (c.toNat - 48)) 0

/-- Value of a hexadecimal digit string. -/
def hexToNat (cs : List Char) : Nat :=
  cs.foldl (fun acc c => acc * 16 + hexVal c) 0

/-- JavaScript `parseInt` with no radix argument: skip leading whitespace,
read an optional sign, then either a `0x`/`0X` hexadecimal literal or the
longest decimal-digit prefix; `none` models `NaN`. -/
def jsParseInt (s : String) : Option Int :=
  let cs := s.data.dropWhile Char.isWhitespace
  let sg : Int := match cs with
    | '-' :: _ => -1
    | _ => 1
  let cs2 : List Char := match cs with
    | '-' :: r => r
    | '+' :: r => r
    | r => r
  match cs2 with
  | '0' :: c :: r =>
    if c = 'x' ∨ c = 'X' then
      let ds := r.takeWhile isHexDig
      if ds.isEmpty then none else some (sg * (hexToNat ds : Int))
    else
      some (sg * (decToNat (cs2.takeWhile isDecDigit) : Int))
  | _ =>
    let ds := cs2.takeWhile isDecDigit
    if ds.isEmpty then none else some (sg * (decToNat ds : Int))

/-- JavaScript `parseInt(v) || d`: an absent parameter parses to `NaN`, and
both `NaN` and `0` are falsy, so they yield the default. -/
def jsIntOr (v : Option String) (d : Int) : Int :=
  match v with
  | none => d
  | some s =>
    match jsParseInt s with
    | none => d
    | some n => if n = 0 then d else n

/-- ASCII lower-case folding, as used by SQLite `LIKE` (which is
case-insensitive for ASCII only). -/
def foldChar (c : Char) : Char :=
  if 'A' ≤ c ∧ c ≤ 'Z' then Char.ofNat (c.toNat + 32) else c

/-- Fold a whole string to ASCII lower case. -/
def foldStr (s : String) : String := ⟨s.data.map foldChar⟩

/-- ASCII upper-casing of a character, modelling JavaScript
`toUpperCase` on the ASCII range. -/
def upChar (c : Char) : Char :=
  if 'a' ≤ c ∧ c ≤ 'z' then Char.ofNat (c.toNat - 32) else c

/-- JavaScript `String.prototype.toUpperCase` (ASCII model). -/
def jsToUpperCase (s : String) : String := ⟨s.data.map upChar⟩

/-- SQLite `LIKE` pattern matching: `%` matches any sequence of zero or
more characters (equivalently, the rest of the pattern matches some
suffix of the text), `_` matches any single character, and any other
pattern character matches ASCII-case-insensitively. -/
def likeMatch : List Char → List Char → Bool
  | [], t => t.isEmpty
  | a :: p, t =>
    if a = '%' then (t.tails).any (fun t2 => likeMatch p t2)
    else
      match t with
      | [] => false
      | c :: t2 =>
        if a = '_' then likeMatch p t2
        else (foldChar a == foldChar c) && likeMatch p t2

/-- SQLite `x LIKE pat` on strings. -/
def sqlLike (pat s : String) : Bool := likeMatch pat.data s.data

/-! ### GET /api/customers : the query builder and its execution -/

/-- The raw query parameters of a list request, each possibly absent. -/
structure ListQuery where
  page : Option String
  limit : Option String
  search : Option String
  city : Option String
  state : Option String
  pin_code : Option String
  sort : Option String
  deriving Repr, DecidableEq

/-- `const page = parseInt(req.query.page) || 1`. -/
def qPage (q : ListQuery) : Int := jsIntOr q.page 1

/-- `const limit = parseInt(req.query.limit) || 10`. -/
def qLimit (q : ListQuery) : Int := jsIntOr q.limit 10

/-- `const offset = (page - 1) * limit`. -/
def qOffset (q : ListQuery) : Int := (qPage q - 1) * qLimit q

/-- `const search = req.query.search || ''` (for a string parameter,
`x || ''` is the identity on present values and `''` when absent). -/
def qSearch (q : ListQuery) : String := q.search.getD ""

/-- `const city = req.query.city || ''`. -/
def qCity (q : ListQuery) : String := q.city.getD ""

/-- `const state = req.query.state || ''`. -/
def qState (q : ListQuery) : String := q.state.getD ""

/-- `const pin_code = req.query.pin_code || ''`. -/
def qPin (q : ListQuery) : String := q.pin_code.getD ""

/-- `const sort = req.query.sort || 'id:asc'`. -/
def qSortRaw (q : ListQuery) : String :=
  if q.sort.getD "" == "" then "id:asc" else q.sort.getD ""

/-- JavaScript `String.prototype.split` with a one-character separator:
the result is never empty, and splitting the empty string yields one
empty piece. -/
def jsSplit (sep : Char) : List Char → List (List Char)
  | [] => [[]]
  | c :: r =>
    match jsSplit sep r with
    | [] => [[c]]
    | h :: t => if c = sep then [] :: h :: t else (c :: h) :: t

/-- `sort.split(':')`. -/
def sortParts (q : ListQuery) : List String :=
  (jsSplit ':' (qSortRaw q).data).map (fun l => ⟨l⟩)

/-- The destructured `sortField` before validation (`split` never returns
an empty array, so the default is immaterial). -/
def rawSortField (q : ListQuery) : String := (sortParts q).headD ""

/-- The destructured `sortDir` before validation; `none` models
`undefined` when the sort string has no colon. -/
def rawSortDir (q : ListQuery) : Option String := (sortParts q)[1]?

/-- `const allowedFields = ['first_name','last_name','id','phone_number']`. -/
def allowedFields : List String := ["first_name", "last_name", "id", "phone_number"]

/-- `if (!allowedFields.includes(sortField)) sortField = 'id'`. -/
def sortField (q : ListQuery) : String :=
  if allowedFields.contains (rawSortField q) then rawSortField q else "id"

/-- `sortDir = (sortDir && sortDir.toUpperCase() === 'DESC') ? 'DESC' : 'ASC'`
(an `undefined` or empty direction is falsy and cannot equal `'DESC'`
after upper-casing either). -/
def sortDir (q : ListQuery) : String :=
  if jsToUpperCase ((rawSortDir q).getD "") == "DESC" then "DESC" else "ASC"

/-- The WHERE fragment pushed for a non-empty `search`. -/
def searchClause : String :=
  "(first_name || \x27 \x27 || last_name LIKE ? OR phone_number LIKE ?)"

/-- The WHERE fragment pushed for a non-empty `city`. -/
def cityClause : String := "id IN (SELECT customer_id FROM addresses WHERE city = ?)"

/-- The WHERE fragment pushed for a non-empty `state`. -/
def stateClause : String := "id IN (SELECT customer_id FROM addresses WHERE state = ?)"

/-- The WHERE fragment pushed for a non-empty `pin_code`. -/
def pinClause : String := "id IN (SELECT customer_id FROM addresses WHERE pin_code = ?)"

/-- `whereParts`: the conditionally pushed WHERE fragments, in source
order (search, city, state, pin_code); a parameter is active exactly when
its (defaulted) value is a non-empty string, i.e. truthy. -/
def whereParts (q : ListQuery) : List String :=
  (if qSearch q == "" then [] else [searchClause]) ++
  (if qCity q == "" then [] else [cityClause]) ++
  (if qState q == "" then [] else [stateClause]) ++
  (if qPin q == "" then [] else [pinClause])

/-- `` `%${search}%` ``: the LIKE pattern bound for the search value. -/
def pct (s : String) : String := "%" ++ s ++ "%"

/-- A value bound to a `?` placeholder: a string or an integer. -/
inductive SqlValue where
  | s (v : String)
  | i (v : Int)
  deriving Repr, DecidableEq

/-- `params`: the bound parameters accumulated alongside `whereParts`
(two copies of the wrapped search pattern, then the exact filter
values). -/
def queryParams (q : ListQuery) : List SqlValue :=
  (if qSearch q == "" then [] else [SqlValue.s (pct (qSearch q)), SqlValue.s (pct (qSearch q))]) ++
  (if qCity q == "" then [] else [SqlValue.s (qCity q)]) ++
  (if qState q == "" then [] else [SqlValue.s (qState q)]) ++
  (if qPin q == "" then [] else [SqlValue.s (qPin q)])

/-- `whereSql = whereParts.length ? 'WHERE ' + whereParts.join(' AND ') : ''`. -/
def whereSql (q : ListQuery) : String :=
  if (whereParts q).isEmpty then ""
  else "WHERE " ++ String.intercalate " AND " (whereParts q)

/-- The text of the count query,
`` `SELECT COUNT(*) as count FROM customers ${whereSql}` ``. -/
def totalSqlText (q : ListQuery) : String :=
  "SELECT COUNT(*) as count FROM customers " ++ whereSql q

/-- The text of the page query, `` `SELECT * FROM customers ${whereSql}
ORDER BY ${sortField} ${sortDir} LIMIT ? OFFSET ?` ``. -/
def pageSqlText (q : ListQuery) : String :=
  "SELECT * FROM customers " ++ whereSql q ++ " ORDER BY " ++ sortField q ++
    " " ++ sortDir q ++ " LIMIT ? OFFSET ?"

/-- The bound parameters of the page query,
`[...params, limit, offset]`. -/
def pageBindings (q : ListQuery) : List SqlValue :=
  queryParams q ++ [SqlValue.i (qLimit q), SqlValue.i (qOffset q)]

/-- Semantics of the search clause for one customer row:
`first_name || ' ' || last_name LIKE '%s%' OR phone_number LIKE '%s%'`. -/
def searchPred (s : String) (c : Customer) : Bool :=
  sqlLike (pct s) (c.first_name ++ " " ++ c.last_name) ||
    sqlLike (pct s) c.phone_number

/-- Semantics of `id IN (SELECT customer_id FROM addresses WHERE city = ?)`. -/
def cityPred (db : DB) (v : String) (c : Customer) : Bool :=
  db.addresses.any (fun a => a.customer_id == c.id && a.city == v)

/-- Semantics of `id IN (SELECT customer_id FROM addresses WHERE state = ?)`. -/
def statePred (db : DB) (v : String) (c : Customer) : Bool :=
  db.addresses.any (fun a => a.customer_id == c.id && a.state == v)

/-- Semantics of `id IN (SELECT customer_id FROM addresses WHERE pin_code = ?)`. -/
def pinPred (db : DB) (v : String) (c : Customer) : Bool :=
  db.addresses.any (fun a => a.customer_id == c.id && a.pin_code == v)

/-- Semantics of the whole WHERE conjunction for one customer row (an
inactive filter contributes no conjunct). -/
def rowPred (db : DB) (q : ListQuery) (c : Customer) : Bool :=
  (if qSearch q == "" then true else searchPred (qSearch q) c) &&
  (if qCity q == "" then true else cityPred db (qCity q) c) &&
  (if qState q == "" then true else statePred db (qState q) c) &&
  (if qPin q == "" then true else pinPred db (qPin q) c)

/-- The customers satisfying the WHERE conjunction. -/
def filteredCustomers (db : DB) (q : ListQuery) : List Customer :=
  db.customers.filter (rowPred db q)

/-- `SELECT COUNT(*) ...` with the same WHERE conjunction (the handler
reads `totalRow.count` and defaults a falsy value to 0, which agrees with
the length). -/
def totalCount (db : DB) (q : ListQuery) : Nat :=
  (filteredCustomers db q).length

/-- The ORDER BY comparator key for one validated field (SQLite compares
TEXT columns by byte order and the INTEGER key numerically). -/
def keyLe (f : String) (a b : Customer) : Bool :=
  if f == "first_name" then decide (a.first_name ≤ b.first_name)
  else if f == "last_name" then decide (a.last_name ≤ b.last_name)
  else if f == "phone_number" then decide (a.phone_number ≤ b.phone_number)
  else decide (a.id ≤ b.id)

/-- The ORDER BY comparator: `DESC` flips the key comparison. -/
def custLe (f d : String) (a b : Customer) : Bool :=
  if d == "DESC" then keyLe f b a else keyLe f a b

/-- `ORDER BY ${sortField} ${sortDir}` applied to the filtered rows. -/
def orderedCustomers (db : DB) (q : ListQuery) : List Customer :=
  (filteredCustomers db q).mergeSort (custLe (sortField q) (sortDir q))

/-- SQLite semantics of `LIMIT ? OFFSET ?` with integer bindings: a
negative OFFSET behaves as 0, and a negative LIMIT means no upper bound
on the number of returned rows. -/
def applyLimitOffset (lim off : Int) (rows : List Customer) : List Customer :=
  let r := rows.drop off.toNat
  if lim < 0 then r else r.take lim.toNat

/-- The rows returned by the page query. -/
def listData (db : DB) (q : ListQuery) : List Customer :=
  applyLimitOffset (qLimit q) (qOffset q) (orderedCustomers db q)

/-- The `meta` object of the list response. -/
structure ListMeta where
  page : Int
  limit : Int
  total : Nat
  deriving Repr, DecidableEq

/-- The successful list response `{ data, meta: { page, limit, total } }`. -/
structure ListResult where
  data : List Customer
  meta : ListMeta
  deriving Repr, DecidableEq

/-- The whole `GET /api/customers` handler. -/
def listCustomers (db : DB) (q : ListQuery) : ListResult :=
  ⟨listData db q, ⟨qPage q, qLimit q, totalCount db q⟩⟩

/-! ### Mutating handlers -/

/-- Constant message of the 409 conflict response. -/
def conflictMessage : String := "Phone number already exists"

/-- Constant message of the generic 500 response. -/
def internalErrorMessage : String := "Internal server error"

/-- Constant message of the 400 empty-update response. -/
def noFieldsMessage : String := "No fields to update"

/-- The optional inline `address` object of a create-customer body. -/
structure InlineAddress where
  address_details : Option String
  city : Option String
  state : Option String
  pin_code : Option String
  deriving Repr, DecidableEq

/-- The JSON body of `POST /api/customers`. -/
structure CreateBody where
  first_name : Option String
  last_name : Option String
  phone_number : Option String
  address : Option InlineAddress
  deriving Repr, DecidableEq

/-- The express-validator chain of the create route:
`first_name`/`last_name` trimmed and non-empty, `phone_number` trimmed,
non-empty and of length 6 to 20 (a missing field fails `notEmpty`). -/
def createValid (b : CreateBody) : Prop :=
  (∃ f, b.first_name = some f ∧ jsTrim f ≠ "") ∧
  (∃ l, b.last_name = some l ∧ jsTrim l ≠ "") ∧
  (∃ p, b.phone_number = some p ∧ jsTrim p ≠ "" ∧
    6 ≤ (jsTrim p).length ∧ (jsTrim p).length ≤ 20)

instance (b : CreateBody) : Decidable (createValid b) := by
  unfold createValid; infer_instance

/-- Outcome of `POST /api/customers`. -/
inductive CreateOutcome where
  | validationError
  | conflict
  | created (c : Customer)
  deriving Repr, DecidableEq

/-- HTTP status of each create outcome. -/
def CreateOutcome.status : CreateOutcome → Nat
  | .validationError => 400
  | .conflict => 409
  | .created _ => 201

/-- Response message of each create outcome. -/
def CreateOutcome.message : CreateOutcome → Option String
  | .validationError => none
  | .conflict => some conflictMessage
  | .created _ => some "Customer created"

/-- Insert the inline address row when `address && address.address_details`
is truthy; missing inline fields are defaulted with `|| ''`.  The inline
values are taken verbatim from the body (no validator trims them). -/
def insertInlineAddress (db : DB) (cid : Nat) (addr : Option InlineAddress) : DB :=
  match addr with
  | none => db
  | some a =>
    match a.address_details with
    | none => db
    | some d =>
      if d = "" then db
      else
        ⟨db.customers,
         db.addresses ++
           [⟨db.nextAddressId, cid, d, a.city.getD "", a.state.getD "", a.pin_code.getD ""⟩],
         db.nextCustomerId, db.nextAddressId + 1⟩

/-- The `POST /api/customers` handler: validate, insert the customer (the
UNIQUE index on `phone_number` rejects a duplicate), then optionally
insert the inline address. -/
def createCustomer (db : DB) (b : CreateBody) : CreateOutcome × DB :=
  if ¬ createValid b then (.validationError, db)
  else
    let f := jsTrim (b.first_name.getD "")
    let l := jsTrim (b.last_name.getD "")
    let p := jsTrim (b.phone_number.getD "")
    if db.customers.any (fun c => c.phone_number == p) then (.conflict, db)
    else
      let c : Customer := ⟨db.nextCustomerId, f, l, p⟩
      let db1 : DB := ⟨db.customers ++ [c], db.addresses,
                       db.nextCustomerId + 1, db.nextAddressId⟩
      (.created c, insertInlineAddress db1 c.id b.address)

/-- The JSON body of `PUT /api/customers/:id`. -/
structure UpdateBody where
  first_name : Option String
  last_name : Option String
  phone_number : Option String
  deriving Repr, DecidableEq

/-- The express-validator chain of the update route: every field is
optional, but a present name must be non-empty after trimming and a
present phone number must have trimmed length 6 to 20. -/
def updateValid (b : UpdateBody) : Prop :=
  (∀ f, b.first_name = some f → jsTrim f ≠ "") ∧
  (∀ l, b.last_name = some l → jsTrim l ≠ "") ∧
  (∀ p, b.phone_number = some p →
    6 ≤ (jsTrim p).length ∧ (jsTrim p).length ≤ 20)

instance (b : UpdateBody) : Decidable (updateValid b) := by
  unfold updateValid; infer_instance

/-- Outcome of `PUT /api/customers/:id`. -/
inductive UpdateOutcome where
  | validationError
  | notFound
  | noFields
  | conflict
  | updated (c : Customer)
  deriving Repr, DecidableEq

/-- HTTP status of each update outcome. -/
def UpdateOutcome.status : UpdateOutcome → Nat
  | .validationError => 400
  | .notFound => 404
  | .noFields => 400
  | .conflict => 409
  | .updated _ => 200

/-- Response message of each update outcome. -/
def UpdateOutcome.message : UpdateOutcome → Option String
  | .validationError => none
  | .notFound => some "Customer not found"
  | .noFields => some noFieldsMessage
  | .conflict => some conflictMessage
  | .updated _ => some "Customer updated"

/-- Truthiness of a sanitized optional field: present and non-empty
(after the `.trim()` sanitizer ran on it). -/
def fieldSet (v : Option String) : Bool :=
  match v with
  | none => false
  | some s => jsTrim s != ""

/-- Apply the `UPDATE customers SET ...` assignments to one row. -/
def applyUpdates (b : UpdateBody) (c : Customer) : Customer :=
  ⟨c.id,
   if fieldSet b.first_name then jsTrim (b.first_name.getD "") else c.first_name,
   if fieldSet b.last_name then jsTrim (b.last_name.getD "") else c.last_name,
   if fieldSet b.phone_number then jsTrim (b.phone_number.getD "") else c.phone_number⟩

/-- The `PUT /api/customers/:id` handler: validate, look the row up
(404), build the dynamic SET list from the truthy fields (400 when
empty), and run the UPDATE; the UNIQUE index on `phone_number` rejects
the new value when a different row already holds it. -/
def updateCustomer (db : DB) (id : Nat) (b : UpdateBody) : UpdateOutcome × DB :=
  if ¬ updateValid b then (.validationError, db)
  else
    match db.customers.find? (fun c => c.id == id) with
    | none => (.notFound, db)
    | some existing =>
      if ¬ (fieldSet b.first_name || fieldSet b.last_name || fieldSet b.phone_number) then
        (.noFields, db)
      else
        if fieldSet b.phone_number &&
            db.customers.any
              (fun c => c.id != id && c.phone_number == jsTrim (b.phone_number.getD "")) then
          (.conflict, db)
        else
          (.updated (applyUpdates b existing),
           ⟨db.customers.map (fun c => if c.id == id then applyUpdates b c else c),
            db.addresses, db.nextCustomerId, db.nextAddressId⟩)

/-- Outcome of `DELETE /api/customers/:id`. -/
inductive DeleteOutcome where
  | notFound
  | deleted
  deriving Repr, DecidableEq

/-- HTTP status of each delete outcome. -/
def DeleteOutcome.status : DeleteOutcome → Nat
  | .notFound => 404
  | .deleted => 200

/-- The `DELETE /api/customers/:id` handler: look the row up (404), then
`DELETE FROM customers WHERE id = ?`; the `ON DELETE CASCADE` clause of
`addresses.customer_id` removes every address row referencing it. -/
def deleteCustomer (db : DB) (id : Nat) : DeleteOutcome × DB :=
  match db.customers.find? (fun c => c.id == id) with
  | none => (.notFound, db)
  | some _ =>
    (.deleted,
     ⟨db.customers.filter (fun c => c.id != id),
      db.addresses.filter (fun a => a.customer_id != id),
      db.nextCustomerId, db.nextAddressId⟩)

/-! ### Address handlers -/

/-- The JSON body of the address routes. -/
structure AddressBody where
  address_details : Option String
  city : Option String
  state : Option String
  pin_code : Option String
  deriving Repr, DecidableEq

/-- Validator chain of `POST /api/customers/:id/addresses`: all four
fields trimmed and non-empty (a missing field fails `notEmpty`). -/
def addrCreateValid (b : AddressBody) : Prop :=
  (∃ v, b.address_details = some v ∧ jsTrim v ≠ "") ∧
  (∃ v, b.city = some v ∧ jsTrim v ≠ "") ∧
  (∃ v, b.state = some v ∧ jsTrim v ≠ "") ∧
  (∃ v, b.pin_code = some v ∧ jsTrim v ≠ "")

instance (b : AddressBody) : Decidable (addrCreateValid b) := by
  unfold addrCreateValid; infer_instance

/-- Validator chain of `PUT /api/addresses/:addressId`: every field
optional, but non-empty after trimming when present. -/
def addrUpdateValid (b : AddressBody) : Prop :=
  (∀ v, b.address_details = some v → jsTrim v ≠ "") ∧
  (∀ v, b.city = some v → jsTrim v ≠ "") ∧
  (∀ v, b.state = some v → jsTrim v ≠ "") ∧
  (∀ v, b.pin_code = some v → jsTrim v ≠ "")

instance (b : AddressBody) : Decidable (addrUpdateValid b) := by
  unfold addrUpdateValid; infer_instance

/-- `SELECT * FROM addresses WHERE id = ?`, the lookup every address
route performs first. -/
def getAddressRow (db : DB) (aid : Nat) : Option Address :=
  db.addresses.find? (fun a => a.id == aid)

/-- Outcome of `POST /api/customers/:id/addresses`. -/
inductive AddAddressOutcome where
  | validationError
  | customerNotFound
  | created (a : Address)
  deriving Repr, DecidableEq

/-- HTTP status of each add-address outcome. -/
def AddAddressOutcome.status : AddAddressOutcome → Nat
  | .validationError => 400
  | .customerNotFound => 404
  | .created _ => 201

/-- The `POST /api/customers/:id/addresses` handler: validate (400),
look the customer up (404), then insert the trimmed values. -/
def addAddress (db : DB) (cid : Nat) (b : AddressBody) : AddAddressOutcome × DB :=
  if ¬ addrCreateValid b then (.validationError, db)
  else
    match db.customers.find? (fun c => c.id == cid) with
    | none => (.customerNotFound, db)
    | some _ =>
      let row : Address :=
        ⟨db.nextAddressId, cid, jsTrim (b.address_details.getD ""),
         jsTrim (b.city.getD ""), jsTrim (b.state.getD ""), jsTrim (b.pin_code.getD "")⟩
      (.created row,
       ⟨db.customers, db.addresses ++ [row], db.nextCustomerId, db.nextAddressId + 1⟩)

/-- Outcome of `PUT /api/addresses/:addressId`. -/
inductive UpdateAddressOutcome where
  | validationError
  | notFound
  | noFields
  | updated (a : Address)
  deriving Repr, DecidableEq

/-- HTTP status of each update-address outcome. -/
def UpdateAddressOutcome.status : UpdateAddressOutcome → Nat
  | .validationError => 400
  | .notFound => 404
  | .noFields => 400
  | .updated _ => 200

/-- Apply the `UPDATE addresses SET ...` assignments to one row. -/
def applyAddressUpdates (b : AddressBody) (a : Address) : Address :=
  ⟨a.id, a.customer_id,
   if fieldSet b.address_details then jsTrim (b.address_details.getD "") else a.address_details,
   if fieldSet b.city then jsTrim (b.city.getD "") else a.city,
   if fieldSet b.state then jsTrim (b.state.getD "") else a.state,
   if fieldSet b.pin_code then jsTrim (b.pin_code.getD "") else a.pin_code⟩

/-- The `PUT /api/addresses/:addressId` handler: validate (400), look
the row up (404), build the dynamic SET list (400 when empty), update. -/
def updateAddress (db : DB) (aid : Nat) (b : AddressBody) : UpdateAddressOutcome × DB :=
  if ¬ addrUpdateValid b then (.validationError, db)
  else
    match getAddressRow db aid with
    | none => (.notFound, db)
    | some existing =>
      if ¬ (fieldSet b.address_details || fieldSet b.city ||
            fieldSet b.state || fieldSet b.pin_code) then
        (.noFields, db)
      else
        (.updated (applyAddressUpdates b existing),
         ⟨db.customers,
          db.addresses.map (fun a => if a.id == aid then applyAddressUpdates b a else a),
          db.nextCustomerId, db.nextAddressId⟩)

/-- Outcome of `DELETE /api/addresses/:addressId`. -/
inductive DeleteAddressOutcome where
  | notFound
  | deleted
  deriving Repr, DecidableEq

/-- HTTP status of each delete-address outcome. -/
def DeleteAddressOutcome.status : DeleteAddressOutcome → Nat
  | .notFound => 404
  | .deleted => 200

/-- The `DELETE /api/addresses/:addressId` handler. -/
def deleteAddress (db : DB) (aid : Nat) : DeleteAddressOutcome × DB :=
  match getAddressRow db aid with
  | none => (.notFound, db)
  | some _ =>
    (.deleted,
     ⟨db.customers, db.addresses.filter (fun a => a.id != aid),
      db.nextCustomerId, db.nextAddressId⟩)

/-! ### Helper lemmas -/

/-- A guarded WHERE conjunct holds iff the guard condition holds (filter
inactive) or the predicate holds. -/
theorem ite_or_true (p : Prop) [Decidable p] (b : Bool) :
    ((if p then true else b) = true) ↔ (p ∨ b = true) := by
  split <;> simp_all

/-- Concrete fixtures used by the witnesses below. -/
def cAnn : Customer := ⟨1, "Ann", "Bee", "123456"⟩

/-- Second fixture customer. -/
def cCid : Customer := ⟨2, "Cid", "Dee", "234567"⟩

/-- Fixture address owned by `cAnn`. -/
def aPune : Address := ⟨1, 1, "12 Lane", "Pune", "MH", "411001"⟩

/-- Fixture database. -/
def dbW : DB := ⟨[cAnn, cCid], [aPune], 3, 2⟩

/-! ### Claims -/

/-- C8: for every list request, `page` defaults to 1 and `limit` to 10
when the parameter is absent or non-numeric, the page query's offset
equals `(page - 1) * limit`, and the response meta echoes the defaulted
`page` and `limit`. -/
theorem C8_paging_defaults (db : DB) (q : ListQuery) :
    ((q.page = none ∨ ∃ s, q.page = some s ∧ jsParseInt s = none) →
      (listCustomers db q).meta.page = 1) ∧
    ((q.limit = none ∨ ∃ s, q.limit = some s ∧ jsParseInt s = none) →
      (listCustomers db q).meta.limit = 10) ∧
    qOffset q = ((listCustomers db q).meta.page - 1) * (listCustomers db q).meta.limit ∧
    pageBindings q = queryParams q ++ [SqlValue.i (qLimit q), SqlValue.i ((qPage q - 1) * qLimit q)] ∧
    (listCustomers db q).meta.page = qPage q ∧
    (listCustomers db q).meta.limit = qLimit q := by
  refine ⟨?_, ?_, rfl, rfl, rfl, rfl⟩
  · rintro (h | ⟨s, hs, hn⟩)
    · simp [listCustomers, qPage, jsIntOr, h]
    · simp [listCustomers, qPage, jsIntOr, hs, hn]
  · rintro (h | ⟨s, hs, hn⟩)
    · simp [listCustomers, qLimit, jsIntOr, h]
    · simp [listCustomers, qLimit, jsIntOr, hs, hn]

/-- C8 witness: a non-numeric `page` and an absent `limit` yield the
defaults at a concrete input. -/
theorem C8_paging_defaults_witness :
    (listCustomers dbW ⟨some "abc", none, none, none, none, none, none⟩).meta.page = 1 ∧
    (listCustomers dbW ⟨some "abc", none, none, none, none, none, none⟩).meta.limit = 10 :=
  ⟨(C8_paging_defaults dbW ⟨some "abc", none, none, none, none, none, none⟩).1
      (Or.inr ⟨"abc", rfl, by decide⟩),
   (C8_paging_defaults dbW ⟨some "abc", none, none, none, none, none, none⟩).2.1 (Or.inl rfl)⟩

/-- C9: updating an existing customer with a body containing none of the
three updatable fields returns 400 with the no-fields message and leaves
the database unchanged. -/
theorem C9_empty_update_rejected (db : DB) (id : Nat)
    (hex : ∃ c ∈ db.customers, c.id = id) :
    (updateCustomer db id ⟨none, none, none⟩).1 = UpdateOutcome.noFields ∧
    UpdateOutcome.noFields.status = 400 ∧
    UpdateOutcome.noFields.message = some "No fields to update" ∧
    (updateCustomer db id ⟨none, none, none⟩).2 = db := by
  obtain ⟨c, hc, hid⟩ := hex
  have hsome : (db.customers.find? (fun c => c.id == id)).isSome := by
    rw [List.find?_isSome]
    exact ⟨c, hc, by simp [hid]⟩
  obtain ⟨x, hx⟩ := Option.isSome_iff_exists.mp hsome
  have hv : updateValid ⟨none, none, none⟩ :=
    ⟨fun _ h => Option.noConfusion h, fun _ h => Option.noConfusion h,
     fun _ h => Option.noConfusion h⟩
  refine ⟨?_, rfl, rfl, ?_⟩ <;> simp [updateCustomer, hv, hx, fieldSet]

/-- C9 witness at a concrete database. -/
theorem C9_empty_update_rejected_witness :
    (updateCustomer dbW 1 ⟨none, none, none⟩).1 = UpdateOutcome.noFields ∧
    (updateCustomer dbW 1 ⟨none, none, none⟩).2 = dbW :=
  ⟨(C9_empty_update_rejected dbW 1 ⟨cAnn, by decide, by decide⟩).1,
   (C9_empty_update_rejected dbW 1 ⟨cAnn, by decide, by decide⟩).2.2.2⟩

/-- C2: the generated SQL text of the count query and of the page query
depends only on which of search/city/state/pin_code are non-empty and on
the validated sort field and direction; two requests agreeing on those
produce identical query text even with different filter values. -/
theorem C2_sql_text_independent_of_values (q1 q2 : ListQuery)
    (hs : qSearch q1 = "" ↔ qSearch q2 = "")
    (hc : qCity q1 = "" ↔ qCity q2 = "")
    (hst : qState q1 = "" ↔ qState q2 = "")
    (hp : qPin q1 = "" ↔ qPin q2 = "")
    (hf : sortField q1 = sortField q2)
    (hd : sortDir q1 = sortDir q2) :
    totalSqlText q1 = totalSqlText q2 ∧ pageSqlText q1 = pageSqlText q2 := by
  have es : (qSearch q1 == "") = (qSearch q2 == "") := by
    rw [Bool.eq_iff_iff]; simpa using hs
  have ec : (qCity q1 == "") = (qCity q2 == "") := by
    rw [Bool.eq_iff_iff]; simpa using hc
  have est : (qState q1 == "") = (qState q2 == "") := by
    rw [Bool.eq_iff_iff]; simpa using hst
  have ep : (qPin q1 == "") = (qPin q2 == "") := by
    rw [Bool.eq_iff_iff]; simpa using hp
  constructor <;>
    simp [totalSqlText, pageSqlText, whereSql, whereParts, es, ec, est, ep, hf, hd]

/-- C2 witness: two concrete requests with different filter values and
differently-cased sort directions generate identical SQL text. -/
theorem C2_sql_text_independent_of_values_witness :
    totalSqlText ⟨some "2", some "5", some "ann", some "Pune", none, none, some "first_name:desc"⟩ =
      totalSqlText ⟨some "9", some "50", some "zz", some "Mumbai", none, none, some "first_name:DESC"⟩ ∧
    pageSqlText ⟨some "2", some "5", some "ann", some "Pune", none, none, some "first_name:desc"⟩ =
      pageSqlText ⟨some "9", some "50", some "zz", some "Mumbai", none, none, some "first_name:DESC"⟩ :=
  C2_sql_text_independent_of_values _ _ (by decide) (by decide) (by decide) (by decide)
    (by decide) (by decide)

/-- C7: membership in the filtered row set is exactly: an inactive
city/state/pin_code filter constrains nothing, and an active one demands
some address of the customer with an exact match on that one field; the
active filters conjoin independently (no single address row need satisfy
all of them). -/
theorem C7_location_filters_independent_exists (db : DB) (q : ListQuery) (c : Customer) :
    c ∈ filteredCustomers db q ↔
      (c ∈ db.customers ∧
       (qSearch q = "" ∨ searchPred (qSearch q) c = true) ∧
       (qCity q = "" ∨ ∃ a ∈ db.addresses, a.customer_id = c.id ∧ a.city = qCity q) ∧
       (qState q = "" ∨ ∃ a ∈ db.addresses, a.customer_id = c.id ∧ a.state = qState q) ∧
       (qPin q = "" ∨ ∃ a ∈ db.addresses, a.customer_id = c.id ∧ a.pin_code = qPin q)) := by
  simp only [filteredCustomers, List.mem_filter, rowPred, Bool.and_eq_true, ite_or_true,
    cityPred, statePred, pinPred, List.any_eq_true, beq_iff_eq]
  tauto

/-- An inline address whose details are missing or empty is not
inserted. -/
theorem insertInline_no_insert (db : DB) (cid : Nat) (addr : Option InlineAddress)
    (h : addr = none ∨ ∃ a, addr = some a ∧
      (a.address_details = none ∨ a.address_details = some "")) :
    insertInlineAddress db cid addr = db := by
  rcases h with h | ⟨a, ha, h2 | h2⟩
  · simp [insertInlineAddress, h]
  · simp [insertInlineAddress, ha, h2]
  · simp [insertInlineAddress, ha, h2]

/-- C6: a create or update that would duplicate another customer's phone
number is rejected as a 409 conflict with the dedicated conflict message
(distinct from the generic 500 message), leaving the store unchanged. -/
theorem C6_duplicate_phone_conflict :
    (∀ (db : DB) (b : CreateBody), createValid b →
      (∃ c ∈ db.customers, c.phone_number = jsTrim (b.phone_number.getD "")) →
      (createCustomer db b).1 = CreateOutcome.conflict ∧
      (createCustomer db b).2 = db ∧
      CreateOutcome.conflict.status = 409 ∧
      CreateOutcome.conflict.message = some conflictMessage ∧
      conflictMessage ≠ internalErrorMessage) ∧
    (∀ (db : DB) (id : Nat) (b : UpdateBody) (p : String), updateValid b →
      b.phone_number = some p →
      (∃ c ∈ db.customers, c.id = id) →
      (∃ c ∈ db.customers, c.id ≠ id ∧ c.phone_number = jsTrim p) →
      (updateCustomer db id b).1 = UpdateOutcome.conflict ∧
      (updateCustomer db id b).2 = db ∧
      UpdateOutcome.conflict.status = 409 ∧
      UpdateOutcome.conflict.message = some conflictMessage) := by
  constructor
  · rintro db b hv ⟨c, hc, hp⟩
    have hany : db.customers.any
        (fun c => c.phone_number == jsTrim (b.phone_number.getD "")) = true :=
      List.any_eq_true.mpr ⟨c, hc, by simp [hp]⟩
    refine ⟨?_, ?_, rfl, rfl, by decide⟩ <;> simp [createCustomer, hv, hany]
  · rintro db id b p hv hbp ⟨c, hc, hcid⟩ ⟨c2, hc2, hne, hp2⟩
    have hsome : (db.customers.find? (fun c => c.id == id)).isSome := by
      rw [List.find?_isSome]
      exact ⟨c, hc, by simp [hcid]⟩
    obtain ⟨x, hx⟩ := Option.isSome_iff_exists.mp hsome
    have hlen := (hv.2.2 p hbp).1
    have hne0 : jsTrim p ≠ "" := by
      intro h0
      rw [h0] at hlen
      simp at hlen
    have hf3 : fieldSet b.phone_number = true := by
      rw [hbp]; simp [fieldSet, hne0]
    have hany : db.customers.any
        (fun c => c.id != id && c.phone_number == jsTrim (b.phone_number.getD "")) = true := by
      rw [hbp]
      exact List.any_eq_true.mpr ⟨c2, hc2, by simp [hne, hp2]⟩
    refine ⟨?_, ?_, rfl, rfl⟩ <;> simp [updateCustomer, hv, hx, hf3, hany]

/-- C6 witness: a concrete duplicate-phone create and a concrete
duplicate-phone update are both rejected with the store unchanged. -/
theorem C6_duplicate_phone_conflict_witness :
    ((createCustomer dbW ⟨some "Eve", some "Fox", some "123456", none⟩).1 =
        CreateOutcome.conflict ∧
      (createCustomer dbW ⟨some "Eve", some "Fox", some "123456", none⟩).2 = dbW) ∧
    ((updateCustomer dbW 2 ⟨none, none, some "123456"⟩).1 = UpdateOutcome.conflict ∧
      (updateCustomer dbW 2 ⟨none, none, some "123456"⟩).2 = dbW) :=
  ⟨⟨(C6_duplicate_phone_conflict.1 dbW ⟨some "Eve", some "Fox", some "123456", none⟩
        (by decide) ⟨cAnn, by decide, by decide⟩).1,
    (C6_duplicate_phone_conflict.1 dbW ⟨some "Eve", some "Fox", some "123456", none⟩
        (by decide) ⟨cAnn, by decide, by decide⟩).2.1⟩,
   ⟨(C6_duplicate_phone_conflict.2 dbW 2 ⟨none, none, some "123456"⟩ "123456"
        (by decide) rfl ⟨cCid, by decide, by decide⟩ ⟨cAnn, by decide, by decide, by decide⟩).1,
    (C6_duplicate_phone_conflict.2 dbW 2 ⟨none, none, some "123456"⟩ "123456"
        (by decide) rfl ⟨cCid, by decide, by decide⟩ ⟨cAnn, by decide, by decide, by decide⟩).2.1⟩⟩

/-- C10: a create-customer request inserts its inline address only when
`address.address_details` is a non-empty string (absent inline
city/state/pin_code are stored as empty strings), while the dedicated
add-address endpoint rejects any body missing or blank in one of its
four fields with a 400. -/
theorem C10_inline_address_vs_dedicated_endpoint :
    (∀ (db : DB) (b : CreateBody) (a : InlineAddress) (d : String),
      createValid b → b.address = some a →
      (∀ c ∈ db.customers, c.phone_number ≠ jsTrim (b.phone_number.getD "")) →
      a.address_details = some d → d ≠ "" →
      (createCustomer db b).2.addresses =
        db.addresses ++ [⟨db.nextAddressId, db.nextCustomerId, d,
          a.city.getD "", a.state.getD "", a.pin_code.getD ""⟩]) ∧
    (∀ (db : DB) (b : CreateBody),
      (b.address = none ∨ ∃ a, b.address = some a ∧
        (a.address_details = none ∨ a.address_details = some "")) →
      (createCustomer db b).2.addresses = db.addresses) ∧
    (∀ (db : DB) (cid : Nat) (b : AddressBody),
      ¬ addrCreateValid b →
      (addAddress db cid b).1 = AddAddressOutcome.validationError ∧
      AddAddressOutcome.validationError.status = 400 ∧
      (addAddress db cid b).2 = db) := by
  refine ⟨?_, ?_, ?_⟩
  · intro db b a d hv haddr hnoconf hdet hdne
    have hany : db.customers.any
        (fun c => c.phone_number == jsTrim (b.phone_number.getD "")) = false := by
      rw [List.any_eq_false]
      intro c hcmem
      simp [hnoconf c hcmem]
    simp [createCustomer, hv, hany, insertInlineAddress, haddr, hdet, hdne]
  · intro db b hempty
    by_cases hv : createValid b
    · by_cases hany : db.customers.any
          (fun c => c.phone_number == jsTrim (b.phone_number.getD "")) = true
      · simp [createCustomer, hv, hany]
      · rw [Bool.not_eq_true] at hany
        simp only [createCustomer, hv, hany, not_true, if_false, Bool.false_eq_true,
          if_neg, not_false_iff]
        rw [insertInline_no_insert _ _ _ hempty]
    · simp [createCustomer, hv]
  · intro db cid b hinv
    exact ⟨by simp [addAddress, hinv], rfl, by simp [addAddress, hinv]⟩

/-- C10 witness: a concrete create with an inline address missing its
city stores an empty-string city; a concrete create whose inline details
are empty inserts nothing; a concrete blank add-address body is a 400. -/
theorem C10_inline_address_vs_dedicated_endpoint_witness :
    ((createCustomer dbW
        ⟨some "Eve", some "Fox", some "555555", some ⟨some "9 Road", none, some "MH", some "400001"⟩⟩).2.addresses =
      dbW.addresses ++ [⟨2, 3, "9 Road", "", "MH", "400001"⟩]) ∧
    ((createCustomer dbW
        ⟨some "Gus", some "Hay", some "666666", some ⟨some "", some "Pune", some "MH", some "411001"⟩⟩).2.addresses =
      dbW.addresses) ∧
    ((addAddress dbW 1 ⟨some "9 Road", some "  ", some "MH", some "400001"⟩).1 =
      AddAddressOutcome.validationError ∧
     (addAddress dbW 1 ⟨some "9 Road", some "  ", some "MH", some "400001"⟩).2 = dbW) :=
  ⟨C10_inline_address_vs_dedicated_endpoint.1 dbW
      ⟨some "Eve", some "Fox", some "555555", some ⟨some "9 Road", none, some "MH", some "400001"⟩⟩
      ⟨some "9 Road", none, some "MH", some "400001"⟩ "9 Road"
      (by decide) rfl (by decide) rfl (by decide),
   C10_inline_address_vs_dedicated_endpoint.2.1 dbW
      ⟨some "Gus", some "Hay", some "666666", some ⟨some "", some "Pune", some "MH", some "411001"⟩⟩
      (Or.inr ⟨⟨some "", some "Pune", some "MH", some "411001"⟩, rfl, Or.inr rfl⟩),
   ⟨(C10_inline_address_vs_dedicated_endpoint.2.2 dbW 1
        ⟨some "9 Road", some "  ", some "MH", some "400001"⟩ (by decide)).1,
    (C10_inline_address_vs_dedicated_endpoint.2.2 dbW 1
        ⟨some "9 Road", some "  ", some "MH", some "400001"⟩ (by decide)).2.2⟩⟩

/-- C1: deleting an existing customer removes its row and every address
row referencing it; any subsequent lookup, valid update, or delete of
such an address reports not-found (404). -/
theorem C1_delete_customer_cascades_addresses (db : DB) (cid : Nat)
    (hwf : db.WF) (hex : ∃ c ∈ db.customers, c.id = cid) :
    (deleteCustomer db cid).1 = DeleteOutcome.deleted ∧
    (∀ c ∈ (deleteCustomer db cid).2.customers, c.id ≠ cid) ∧
    (∀ a ∈ db.addresses, a.customer_id = cid →
      getAddressRow (deleteCustomer db cid).2 a.id = none ∧
      (∀ b : AddressBody, addrUpdateValid b →
        (updateAddress (deleteCustomer db cid).2 a.id b).1 = UpdateAddressOutcome.notFound ∧
        ((updateAddress (deleteCustomer db cid).2 a.id b).1).status = 404) ∧
      (deleteAddress (deleteCustomer db cid).2 a.id).1 = DeleteAddressOutcome.notFound ∧
      ((deleteAddress (deleteCustomer db cid).2 a.id).1).status = 404) := by
  obtain ⟨c0, hc0, hid0⟩ := hex
  have hsome : (db.customers.find? (fun c => c.id == cid)).isSome := by
    rw [List.find?_isSome]
    exact ⟨c0, hc0, by simp [hid0]⟩
  obtain ⟨x, hx⟩ := Option.isSome_iff_exists.mp hsome
  have hfst : (deleteCustomer db cid).1 = DeleteOutcome.deleted := by
    simp [deleteCustomer, hx]
  have hcust : (deleteCustomer db cid).2.customers =
      db.customers.filter (fun c => c.id != cid) := by
    simp [deleteCustomer, hx]
  have haddr : (deleteCustomer db cid).2.addresses =
      db.addresses.filter (fun a => a.customer_id != cid) := by
    simp [deleteCustomer, hx]
  refine ⟨hfst, ?_, ?_⟩
  · intro c hcmem
    rw [hcust] at hcmem
    have := (List.mem_filter.mp hcmem).2
    simpa using this
  · intro a hamem hacid
    have hnone : getAddressRow (deleteCustomer db cid).2 a.id = none := by
      rw [getAddressRow, haddr, List.find?_eq_none]
      intro y hy hyid
      have hy2 := List.mem_filter.mp hy
      have hyeq : y = a :=
        List.inj_on_of_nodup_map hwf.2.1 hy2.1 hamem (by simpa using hyid)
      rw [hyeq] at hy2
      rw [hacid] at hy2
      simpa using hy2.2
    refine ⟨hnone, ?_, ?_, ?_⟩
    · intro b hvb
      constructor <;> simp [updateAddress, hvb, hnone, UpdateAddressOutcome.status]
    · simp [deleteAddress, hnone]
    · simp [deleteAddress, hnone, DeleteAddressOutcome.status]

/-- C1 witness at a concrete database: after deleting customer 1, its
address 1 is gone and a valid update of it reports 404. -/
theorem C1_delete_customer_cascades_addresses_witness :
    getAddressRow (deleteCustomer dbW 1).2 aPune.id = none ∧
    (updateAddress (deleteCustomer dbW 1).2 aPune.id
      ⟨some "new details", none, none, none⟩).1 = UpdateAddressOutcome.notFound :=
  ⟨((C1_delete_customer_cascades_addresses dbW 1 (by decide)
      ⟨cAnn, by decide, by decide⟩).2.2 aPune (by decide) (by decide)).1,
   (((C1_delete_customer_cascades_addresses dbW 1 (by decide)
      ⟨cAnn, by decide, by decide⟩).2.2 aPune (by decide) (by decide)).2.1
      ⟨some "new details", none, none, none⟩ (by decide)).1⟩

/-- Replace only the page/limit parameters of a request. -/
def withPageLimit (q : ListQuery) (p l : Option String) : ListQuery :=
  ⟨p, l, q.search, q.city, q.state, q.pin_code, q.sort⟩

/-- C3 counterexample: with `limit=-1` (accepted by `parseInt` and
truthy), SQLite treats the negative LIMIT as unbounded, so the returned
row count exceeds `meta.limit`; the claim's `data.length ≤ limit` fails. -/
theorem C3_counterexample_negative_limit :
    ¬ (((listCustomers dbW ⟨none, some "-1", none, none, none, none, none⟩).data.length : Int) ≤
      (listCustomers dbW ⟨none, some "-1", none, none, none, none, none⟩).meta.limit) := by
  have hlen : (listCustomers dbW ⟨none, some "-1", none, none, none, none, none⟩).data.length = 2 := by
    show (listData dbW ⟨none, some "-1", none, none, none, none, none⟩).length = 2
    rw [listData, applyLimitOffset]
    rw [show qLimit ⟨none, some "-1", none, none, none, none, none⟩ = -1 from by decide]
    rw [show qOffset ⟨none, some "-1", none, none, none, none, none⟩ = 0 from by decide]
    simp only [show ((-1 : Int) < 0) = True from by simp, if_true]
    rw [Int.toNat_zero, List.drop_zero, orderedCustomers, List.length_mergeSort]
    show (filteredCustomers dbW ⟨none, some "-1", none, none, none, none, none⟩).length = 2
    decide
  have hlim : (listCustomers dbW ⟨none, some "-1", none, none, none, none, none⟩).meta.limit = -1 := by
    show qLimit ⟨none, some "-1", none, none, none, none, none⟩ = -1
    decide
  rw [hlen, hlim]
  decide

/-- C3 (amended): `meta.total` equals the filtered count independently of
`page`/`limit`; `data.length ≤ limit` holds whenever the (defaulted)
limit is nonnegative; and an offset at or past the end of the filtered
set yields an empty page with the total intact, never an error. -/
theorem C3_total_and_page_bound (db : DB) (q : ListQuery) (p l : Option String) :
    (listCustomers db (withPageLimit q p l)).meta.total = totalCount db q ∧
    (listCustomers db q).meta.total = totalCount db q ∧
    (0 ≤ qLimit q → ((listCustomers db q).data.length : Int) ≤ qLimit q) ∧
    (totalCount db q ≤ (qOffset q).toNat → (listCustomers db q).data = []) := by
  refine ⟨rfl, rfl, ?_, ?_⟩
  · intro h
    show ((applyLimitOffset (qLimit q) (qOffset q) (orderedCustomers db q)).length : Int) ≤ qLimit q
    rw [applyLimitOffset, if_neg (by omega)]
    calc ((List.take (qLimit q).toNat ((orderedCustomers db q).drop (qOffset q).toNat)).length : Int)
        ≤ ((qLimit q).toNat : Int) := by
          exact_mod_cast List.length_take_le _ _
      _ = qLimit q := Int.toNat_of_nonneg h
  · intro h
    show applyLimitOffset (qLimit q) (qOffset q) (orderedCustomers db q) = []
    have hd : (orderedCustomers db q).drop (qOffset q).toNat = [] := by
      apply List.drop_eq_nil_of_le
      rw [orderedCustomers, List.length_mergeSort]
      exact h
    rw [applyLimitOffset, hd]
    split <;> simp

/-- C3 witness: a concrete request for page 9 of limit 5 returns an empty
page while `meta.total` still reports the real count, also under changed
page/limit. -/
theorem C3_total_and_page_bound_witness :
    (listCustomers dbW (withPageLimit ⟨some "9", some "5", none, none, none, none, none⟩
        (some "1") (some "100"))).meta.total =
      totalCount dbW ⟨some "9", some "5", none, none, none, none, none⟩ ∧
    ((listCustomers dbW ⟨some "9", some "5", none, none, none, none, none⟩).data.length : Int) ≤
      qLimit ⟨some "9", some "5", none, none, none, none, none⟩ ∧
    (listCustomers dbW ⟨some "9", some "5", none, none, none, none, none⟩).data = [] :=
  ⟨(C3_total_and_page_bound dbW ⟨some "9", some "5", none, none, none, none, none⟩
      (some "1") (some "100")).1,
   (C3_total_and_page_bound dbW ⟨some "9", some "5", none, none, none, none, none⟩
      (some "1") (some "100")).2.2.1 (by decide),
   (C3_total_and_page_bound dbW ⟨some "9", some "5", none, none, none, none, none⟩
      (some "1") (some "100")).2.2.2 (by decide)⟩

/-- The ORDER BY comparator key is transitive for every field. -/
theorem keyLe_trans (f : String) (a b c : Customer)
    (h1 : keyLe f a b = true) (h2 : keyLe f b c = true) : keyLe f a c = true := by
  unfold keyLe at *
  split_ifs at * <;> simp only [decide_eq_true_eq] at * <;> exact le_trans h1 h2

/-- The ORDER BY comparator key is total for every field. -/
theorem keyLe_total (f : String) (a b : Customer) :
    keyLe f a b || keyLe f b a := by
  unfold keyLe
  split_ifs <;> simp only [Bool.or_eq_true, decide_eq_true_eq] <;> exact le_total _ _

/-- The full ORDER BY comparator is transitive. -/
theorem custLe_trans (f d : String) (a b c : Customer)
    (h1 : custLe f d a b) (h2 : custLe f d b c) : custLe f d a c := by
  unfold custLe at *
  split_ifs at *
  · exact keyLe_trans f c b a h2 h1
  · exact keyLe_trans f a b c h1 h2

/-- The full ORDER BY comparator is total. -/
theorem custLe_total (f d : String) (a b : Customer) :
    custLe f d a b || custLe f d b a := by
  unfold custLe
  split_ifs
  · exact keyLe_total f b a
  · exact keyLe_total f a b

/-- The page slice is a sublist of the ordered row set. -/
theorem sublist_applyLimitOffset (lim off : Int) (rows : List Customer) :
    (applyLimitOffset lim off rows).Sublist rows := by
  rw [applyLimitOffset]
  split
  · exact List.drop_sublist _ _
  · exact (List.take_sublist _ _).trans (List.drop_sublist _ _)

/-- Every ordering relation implied by the validated comparator holds
pairwise along the returned page. -/
theorem pairwise_listData (db : DB) (q : ListQuery) (R : Customer → Customer → Prop)
    (h : ∀ a b, custLe (sortField q) (sortDir q) a b = true → R a b) :
    (listData db q).Pairwise R := by
  have hs : (orderedCustomers db q).Pairwise
      (fun a b => custLe (sortField q) (sortDir q) a b = true) :=
    @List.sorted_mergeSort Customer (custLe (sortField q) (sortDir q))
      (custLe_trans _ _) (custLe_total _ _) (filteredCustomers db q)
  exact List.Pairwise.sublist (sublist_applyLimitOffset _ _ _)
    (hs.imp (fun hab => h _ _ hab))

/-- `allowedFields.includes` agrees with list membership. -/
theorem contains_allowed_iff (s : String) :
    (allowedFields.contains s = true) ↔ s ∈ allowedFields :=
  List.elem_iff

/-- C5: the sort parameter splits at `:`; an unrecognized field part
falls back to `id`, the direction is `DESC` exactly when the direction
part equals `desc` case-insensitively (ASCII upper-folding both sides)
and `ASC` otherwise; consequently an unrecognized field with a
non-descending direction yields ascending-by-id pages, and
`phone_number:desc` yields non-increasing phone numbers. -/
theorem C5_sort_validation_and_order (db : DB) (q : ListQuery) :
    (¬ rawSortField q ∈ allowedFields → sortField q = "id") ∧
    (rawSortField q ∈ allowedFields → sortField q = rawSortField q) ∧
    (sortDir q = "DESC" ↔ jsToUpperCase ((rawSortDir q).getD "") = jsToUpperCase "desc") ∧
    (sortDir q ≠ "DESC" → sortDir q = "ASC") ∧
    (¬ rawSortField q ∈ allowedFields →
      jsToUpperCase ((rawSortDir q).getD "") ≠ jsToUpperCase "desc" →
      (listCustomers db q).data.Pairwise (fun a b => a.id ≤ b.id)) ∧
    (q.sort = some "phone_number:desc" →
      (listCustomers db q).data.Pairwise (fun a b => b.phone_number ≤ a.phone_number)) := by
  have hdesc : jsToUpperCase "desc" = "DESC" := by decide
  have hfneg : ¬ rawSortField q ∈ allowedFields → sortField q = "id" := by
    intro h
    rw [sortField, if_neg]
    intro hc
    exact h ((contains_allowed_iff _).mp hc)
  have hfpos : rawSortField q ∈ allowedFields → sortField q = rawSortField q := by
    intro h
    rw [sortField, if_pos ((contains_allowed_iff _).mpr h)]
  have hdiff : sortDir q = "DESC" ↔
      jsToUpperCase ((rawSortDir q).getD "") = jsToUpperCase "desc" := by
    rw [hdesc]
    constructor
    · intro h
      by_cases hc : jsToUpperCase ((rawSortDir q).getD "") = "DESC"
      · exact hc
      · exfalso
        rw [sortDir, if_neg (by simpa using hc)] at h
        exact absurd h (by decide)
    · intro h
      rw [sortDir, if_pos (by simpa using h)]
  have hasc : sortDir q ≠ "DESC" → sortDir q = "ASC" := by
    intro h
    by_cases hc : (jsToUpperCase ((rawSortDir q).getD "") == "DESC") = true
    · exact absurd (by rw [sortDir, if_pos hc]) h
    · rw [sortDir, if_neg hc]
  refine ⟨hfneg, hfpos, hdiff, hasc, ?_, ?_⟩
  · intro hf hd
    have hF := hfneg hf
    have hD : sortDir q = "ASC" := hasc (fun h => hd ((hdiff.mp h).trans hdesc.symm ▸ hdiff.mp h))
    apply pairwise_listData
    intro a b hab
    rw [hF, hD] at hab
    simpa [custLe, keyLe] using hab
  · intro hq
    have hparts : sortParts q = ["phone_number", "desc"] := by
      simp only [sortParts, qSortRaw, hq]
      decide
    have hF : sortField q = "phone_number" := by
      simp only [sortField, rawSortField, hparts]
      decide
    have hD : sortDir q = "DESC" := by
      simp only [sortDir, rawSortDir, hparts]
      decide
    apply pairwise_listData
    intro a b hab
    rw [hF, hD] at hab
    simpa [custLe, keyLe] using hab

/-- C5 witness: `sort=bogus` falls back to ascending-by-id on a concrete
database, and `sort=phone_number:desc` gives non-increasing phones. -/
theorem C5_sort_validation_and_order_witness :
    sortField ⟨none, none, none, none, none, none, some "bogus"⟩ = "id" ∧
    (listCustomers dbW ⟨none, none, none, none, none, none, some "bogus"⟩).data.Pairwise
      (fun a b => a.id ≤ b.id) ∧
    (listCustomers dbW ⟨none, none, none, none, none, none, some "phone_number:desc"⟩).data.Pairwise
      (fun a b => b.phone_number ≤ a.phone_number) :=
  ⟨(C5_sort_validation_and_order dbW ⟨none, none, none, none, none, none, some "bogus"⟩).1
      (by decide),
   (C5_sort_validation_and_order dbW ⟨none, none, none, none, none, none, some "bogus"⟩).2.2.2.2.1
      (by decide) (by decide),
   (C5_sort_validation_and_order dbW
      ⟨none, none, none, none, none, none, some "phone_number:desc"⟩).2.2.2.2.2 rfl⟩

/-! ### LIKE semantics vs the spec's substring reading (C4) -/

/-- The spec's search notion: the needle occurs case-insensitively
(ASCII folding) as a contiguous substring of the haystack. -/
def ciSubstring (needle hay : String) : Prop :=
  (foldStr needle).data <:+: (foldStr hay).data

instance (needle hay : String) : Decidable (ciSubstring needle hay) := by
  unfold ciSubstring; infer_instance

/-- The spec's search predicate, read off the spec sentence: the search
string occurs case-insensitively as a substring of first name, a single
space, and last name concatenated, or of the phone number. -/
def specSearchMatch (s : String) (c : Customer) : Prop :=
  ciSubstring s (c.first_name ++ " " ++ c.last_name) ∨ ciSubstring s c.phone_number

instance (s : String) (c : Customer) : Decidable (specSearchMatch s c) := by
  unfold specSearchMatch; infer_instance

/-- A lone `%` pattern matches every text. -/
theorem likeMatch_pct_nil (t : List Char) : likeMatch ['%'] t = true := by
  show likeMatch ('%' :: []) t = true
  rw [likeMatch.eq_def]
  simp only [if_pos rfl, if_true]
  rw [List.any_eq_true]
  refine ⟨[], (List.mem_tails _ _).mpr List.nil_suffix, ?_⟩
  rfl

/-- A leading `%` matches iff the rest of the pattern matches some
suffix of the text. -/
theorem likeMatch_pct_cons (p t : List Char) :
    likeMatch ('%' :: p) t = true ↔ ∃ t2, t2 <:+ t ∧ likeMatch p t2 = true := by
  rw [likeMatch.eq_def]
  simp only [if_pos rfl, if_true]
  rw [List.any_eq_true]
  constructor
  · rintro ⟨t2, hmem, hm⟩
    exact ⟨t2, (List.mem_tails _ _).mp hmem, hm⟩
  · rintro ⟨t2, hsuf, hm⟩
    exact ⟨t2, (List.mem_tails _ _).mpr hsuf, hm⟩

/-- For a wildcard-free core, the pattern `core%` matches a text iff the
folded core is a prefix of the folded text. -/
theorem likeMatch_nowild_pct (cs : List Char) (hp : '%' ∉ cs) (hu : '_' ∉ cs) :
    ∀ t, likeMatch (cs ++ ['%']) t = true ↔ cs.map foldChar <+: t.map foldChar := by
  induction cs with
  | nil =>
    intro t
    simp only [List.nil_append, List.map_nil]
    exact ⟨fun _ => List.nil_prefix, fun _ => likeMatch_pct_nil t⟩
  | cons a cs ih =>
    simp only [List.mem_cons, not_or] at hp hu
    intro t
    have ha1 : ¬ a = '%' := fun h => hp.1 h.symm
    have ha2 : ¬ a = '_' := fun h => hu.1 h.symm
    cases t with
    | nil =>
      rw [List.cons_append, likeMatch.eq_def]
      simp only [if_neg ha1]
      simp
    | cons c t2 =>
      rw [List.cons_append, likeMatch.eq_def]
      simp only [if_neg ha1]
      show (if a = '_' then likeMatch (cs ++ ['%']) t2
        else (foldChar a == foldChar c) && likeMatch (cs ++ ['%']) t2) = true ↔ _
      rw [if_neg ha2, Bool.and_eq_true, beq_iff_eq, ih hp.2 hu.2 t2]
      simp only [List.map_cons]
      rw [List.cons_prefix_cons]

/-- Suffixes of a mapped list are exactly the images of suffixes. -/
theorem suffix_map_iff (f : Char → Char) (u t : List Char) :
    u <:+ t.map f ↔ ∃ t2, t2 <:+ t ∧ u = t2.map f := by
  constructor
  · rintro ⟨v, hv⟩
    rcases List.map_eq_append_iff.mp hv.symm with ⟨v2, u2, ht, hv2, hu2⟩
    exact ⟨u2, ⟨v2, by rw [ht]⟩, hu2.symm⟩
  · rintro ⟨t2, ht2, rfl⟩
    exact ht2.map f

/-- For a wildcard-free search value, `LIKE '%value%'` is exactly the
spec's case-insensitive substring occurrence. -/
theorem sqlLike_pct_iff (s : String) (hw1 : '%' ∉ s.data) (hw2 : '_' ∉ s.data) (t : String) :
    sqlLike (pct s) t = true ↔ ciSubstring s t := by
  have hdata : (pct s).data = '%' :: (s.data ++ ['%']) := by
    show ("%" ++ s ++ "%").data = _
    rw [String.data_append, String.data_append]
    rfl
  rw [sqlLike, hdata, likeMatch_pct_cons, ciSubstring]
  show _ ↔ s.data.map foldChar <:+: t.data.map foldChar
  constructor
  · rintro ⟨t2, ht2, hm⟩
    have hpre := (likeMatch_nowild_pct s.data hw1 hw2 t2).mp hm
    exact List.infix_iff_prefix_suffix.mpr ⟨t2.map foldChar, hpre, ht2.map foldChar⟩
  · intro hinf
    obtain ⟨u, hupre, husuf⟩ := List.infix_iff_prefix_suffix.mp hinf
    obtain ⟨t2, ht2, rfl⟩ := (suffix_map_iff foldChar u t.data).mp husuf
    exact ⟨t2, ht2, (likeMatch_nowild_pct s.data hw1 hw2 t2).mpr hupre⟩

/-- The handler's search clause agrees with the spec's substring reading
whenever the search value contains no LIKE wildcard. -/
theorem searchPred_iff_spec (s : String) (hw1 : '%' ∉ s.data) (hw2 : '_' ∉ s.data)
    (c : Customer) : searchPred s c = true ↔ specSearchMatch s c := by
  unfold searchPred specSearchMatch
  rw [Bool.or_eq_true, sqlLike_pct_iff s hw1 hw2, sqlLike_pct_iff s hw1 hw2]

/-- C4 counterexample: searching for the literal `_` (a LIKE wildcard),
the handler returns customers that do not contain `_` anywhere, because
the value is spliced into the LIKE pattern unescaped; the claimed
substring characterization of the result set fails. -/
theorem C4_counterexample_wildcard :
    (listCustomers dbW ⟨none, none, some "_", none, none, none, none⟩).data = [cAnn, cCid] ∧
    ¬ specSearchMatch "_" cAnn ∧ ¬ specSearchMatch "_" cCid := by
  refine ⟨?_, by decide, by decide⟩
  show listData dbW ⟨none, none, some "_", none, none, none, none⟩ = [cAnn, cCid]
  have hf : filteredCustomers dbW ⟨none, none, some "_", none, none, none, none⟩ =
      [cAnn, cCid] := by decide
  rw [listData, orderedCustomers, hf, List.mergeSort_of_sorted (by decide)]
  decide

/-- C4 (amended): for a non-empty search containing no LIKE wildcard
(`%` or `_`) and no other active filter, the filtered set is exactly the
customers whose folded name-with-space or phone number contains the
search as a substring, and every returned page row comes from that set. -/
theorem C4_search_filter_is_ci_substring (db : DB) (q : ListQuery) (c : Customer)
    (hne : qSearch q ≠ "")
    (hw1 : '%' ∉ (qSearch q).data) (hw2 : '_' ∉ (qSearch q).data)
    (hcity : qCity q = "") (hstate : qState q = "") (hpin : qPin q = "") :
    (c ∈ filteredCustomers db q ↔ c ∈ db.customers ∧ specSearchMatch (qSearch q) c) ∧
    (∀ x ∈ (listCustomers db q).data, x ∈ filteredCustomers db q) := by
  constructor
  · rw [filteredCustomers, List.mem_filter]
    have h1 : rowPred db q c = searchPred (qSearch q) c := by
      unfold rowPred
      simp [hcity, hstate, hpin, hne]
    rw [h1, searchPred_iff_spec _ hw1 hw2]
  · intro x hx
    exact List.mem_mergeSort.mp ((sublist_applyLimitOffset _ _ _).subset hx)

/-- C4 witness: the wildcard-free search `ann` matches `cAnn` exactly as
the substring reading predicts. -/
theorem C4_search_filter_is_ci_substring_witness :
    cAnn ∈ filteredCustomers dbW ⟨none, none, some "ann", none, none, none, none⟩ ↔
      cAnn ∈ dbW.customers ∧
        specSearchMatch (qSearch ⟨none, none, some "ann", none, none, none, none⟩) cAnn :=
  (C4_search_filter_is_ci_substring dbW ⟨none, none, some "ann", none, none, none, none⟩ cAnn
    (by decide) (by decide) (by decide) rfl rfl rfl).1
